import Mathlib

/-!
Shallow embedding of the health/freshness evaluation core of the
CryptoPrism-DB-Monitor dashboard (src/utils/helpers.py,
src/services/database_service.py, src/pages/pipeline_monitor.py).

Timestamps and clock instants are modelled as rational numbers of seconds;
ages in hours are rationals. Database scalar queries are modelled as
`Except Unit (Option v)` values: `.error ()` is a raised exception from the
underlying engine, `.ok none` is a NULL / None scalar, `.ok (some v)` is a
value. Python truthiness is modelled explicitly where the source relies
on it.
-/

/-- Python's `round` rounds half to even. `roundHalfEven q` is the integer
Python's `round(q)` produces for an exact rational `q`. -/
def roundHalfEven (q : ℚ) : ℤ :=
  let f := ⌊q⌋
  let r := q - (f : ℚ)
  if r < 1/2 then f
  else if (1:ℚ)/2 < r then f + 1
  else if Even f then f else f + 1

/-- Python's `round(q, 1)` (one decimal place), used by `get_age_hours` in
helpers.py and by the `:.1f` display format of the health score. -/
def round1 (q : ℚ) : ℚ := ((roundHalfEven (q * 10) : ℤ) : ℚ) / 10

/-- helpers.py `get_age_hours`: age in hours of a timestamp relative to
`datetime.now()` (passed explicitly as `now`), rounded to one decimal;
`None` for a missing timestamp. -/
def get_age_hours (now : ℚ) (timestamp : Option ℚ) : Option ℚ :=
  timestamp.map (fun t => round1 ((now - t) / 3600))

/-- helpers.py `get_freshness_status`: freshness label from an optional age
in hours. -/
def get_freshness_status (age_hours : Option ℚ) : String :=
  match age_hours with
  | none => "Unknown"
  | some a =>
    if a < 1 then "Very Fresh (< 1h)"
    else if a < 6 then "Fresh (< 6h)"
    else if a < 24 then "Recent (< 24h)"
    else if a < 72 then "Stale (2-3 days)"
    else if a < 168 then "Old (3-7 days)"
    else "Very Old (> 7 days)"

/-- Freshness order used to state monotonicity: larger means fresher.
Labels not produced by `get_freshness_status` rank 0, like the oldest. -/
def freshRank (s : String) : ℕ :=
  if s = "Very Fresh (< 1h)" then 5
  else if s = "Fresh (< 6h)" then 4
  else if s = "Recent (< 24h)" then 3
  else if s = "Stale (2-3 days)" then 2
  else if s = "Old (3-7 days)" then 1
  else 0

/-- Python `dict` access `d[k]` / `k in d` over an association-list model
of a dict. -/
def dictGet (k : String) : List (String × β) → Option β
  | [] => none
  | (a, b) :: rest => if a = k then some b else dictGet k rest

/-- helpers.py `DashboardCache`: in-memory TTL cache. The two Python dicts
`_cache` and `_timestamps` are modelled as association lists in which
assignment replaces any previous binding of the key, as `dict` assignment
does. -/
structure DashboardCache (α : Type) where
  cache : List (String × α)
  timestamps : List (String × ℚ)

/-- The fresh cache built by `DashboardCache.__init__`. -/
def DashboardCache.empty (α : Type) : DashboardCache α := ⟨[], []⟩

/-- `DashboardCache.set`: store `value` under `key`, expiring at
`now + ttl_seconds`. -/
def DashboardCache.set (c : DashboardCache α) (key : String) (value : α)
    (ttl_seconds : ℚ) (now : ℚ) : DashboardCache α :=
  ⟨(key, value) :: c.cache.filter (fun p => p.1 ≠ key),
   (key, now + ttl_seconds) :: c.timestamps.filter (fun p => p.1 ≠ key)⟩

/-- `DashboardCache._is_expired`: `datetime.now() > self._timestamps[key]`;
a key without a recorded expiry counts as expired. -/
def DashboardCache.isExpired (c : DashboardCache α) (key : String) (now : ℚ) : Bool :=
  match dictGet key c.timestamps with
  | none => true
  | some t => decide (t < now)

/-- `DashboardCache.delete`: drop the key from both dicts. -/
def DashboardCache.delete (c : DashboardCache α) (key : String) : DashboardCache α :=
  ⟨c.cache.filter (fun p => p.1 ≠ key), c.timestamps.filter (fun p => p.1 ≠ key)⟩

/-- `DashboardCache.get`: return the cached value unless the entry is
expired, in which case delete it and return `None`. Returns the value
together with the cache state after the call. -/
def DashboardCache.get (c : DashboardCache α) (key : String) (now : ℚ) :
    Option α × DashboardCache α :=
  match dictGet key c.cache with
  | some v => if c.isExpired key now then (none, c.delete key) else (some v, c)
  | none => (none, c)

/-- `DashboardCache.clear`: drop everything. -/
def DashboardCache.clear (_c : DashboardCache α) : DashboardCache α := ⟨[], []⟩

example : get_freshness_status (some (99/100)) = "Very Fresh (< 1h)" := by
  norm_num [get_freshness_status]
example : get_freshness_status (some 24) = "Stale (2-3 days)" := by
  norm_num [get_freshness_status]
example : round1 (1000/30) = 333/10 := by
  unfold round1 roundHalfEven
  norm_num [Int.floor_eq_iff]

/-!
src/services/database_service.py
-/

/-- A scalar value returned by a `MAX(col)` timestamp query, as Python sees
it: either a `datetime` (always truthy) or some other value with its own
truthiness (the source checks `if result:` and `isinstance(result, datetime)`). -/
inductive TsVal where
  | dt (t : ℚ)
  | other (truthy : Bool)
deriving DecidableEq

/-- Python truthiness of a `TsVal`: `datetime` objects are always truthy. -/
def TsVal.isTruthy : TsVal → Bool
  | .dt _ => true
  | .other b => b

/-- `DatabaseService.execute_scalar`: runs a scalar query; any exception is
caught, logged and turned into `None`. The query outcome is passed in as an
`Except`: `.error ()` models a raised exception, `.ok v` the scalar
(`none` being SQL NULL / Python None). -/
def execute_scalar (r : Except Unit (Option α)) : Option α :=
  match r with
  | .ok v => v
  | .error _ => none

/-- `DatabaseService.get_table_exists`: `inspector.has_table` with every
exception caught and converted to `False`. -/
def get_table_exists (r : Except Unit Bool) : Bool :=
  match r with
  | .ok b => b
  | .error _ => false

/-- `DatabaseService.get_table_count`: `execute_scalar(COUNT(*)) or 0`;
a falsy scalar (None, or 0 itself) yields 0, and the surrounding
`try/except` maps an exception to 0 (`execute_scalar` already returns None
on failure, so the handler is unreachable). -/
def get_table_count (r : Except Unit (Option ℤ)) : ℤ :=
  match execute_scalar r with
  | some n => if n = 0 then 0 else n
  | none => 0

/-- `DatabaseService.get_table_size`: `execute_scalar(pg_size_pretty(...))
or 'Unknown'`; a falsy scalar (None or the empty string) yields
"Unknown". The `except` branch returning "Error" is unreachable because
`execute_scalar` swallows failures. -/
def get_table_size (r : Except Unit (Option String)) : String :=
  match execute_scalar r with
  | some s => if s = "" then "Unknown" else s
  | none => "Unknown"

/-- The fixed candidate timestamp column order of
`DatabaseService._get_latest_timestamp`. -/
def timestamp_columns : List String :=
  ["updated_at", "created_at", "timestamp", "last_updated", "date"]

/-- Loop body of `DatabaseService._get_latest_timestamp` over a candidate
column list: for each column run `MAX(col) WHERE col IS NOT NULL` via
`execute_scalar` (failures become None); a falsy result moves on to the
next candidate; a truthy result returns it if it is a `datetime` and
otherwise returns None, ending the search. `db` maps a column name to its
query outcome. -/
def get_latest_timestamp_from (db : String → Except Unit (Option TsVal)) :
    List String → Option ℚ
  | [] => none
  | col :: rest =>
    match execute_scalar (db col) with
    | some v =>
      if v.isTruthy then
        match v with
        | .dt t => some t
        | .other _ => none
      else get_latest_timestamp_from db rest
    | none => get_latest_timestamp_from db rest

/-- `DatabaseService._get_latest_timestamp`: try the candidate columns in
their fixed order. -/
def get_latest_timestamp (db : String → Except Unit (Option TsVal)) : Option ℚ :=
  get_latest_timestamp_from db timestamp_columns

/-- `DatabaseService._calculate_table_health`: health from row count and
data freshness; `now` is `datetime.now()` in seconds, `last_update` a
timestamp in seconds. -/
def calculate_table_health (now : ℚ) (count : ℤ) (last_update : Option ℚ) : String :=
  if count = 0 then "Warning"
  else
    match last_update with
    | some t =>
      let hours_old := (now - t) / 3600
      if hours_old < 24 then "Good"
      else if hours_old < 72 then "Warning"
      else "Critical"
    | none => "Unknown"

/-- The per-table view of the database that one iteration of
`DatabaseService._get_tables_status` consumes: the outcome of the
`has_table` call, of the `COUNT(*)` scalar, of the size scalar, and of the
`MAX(col)` scalar for each candidate timestamp column. -/
structure TableConn where
  hasTable : Except Unit Bool
  countRes : Except Unit (Option ℤ)
  sizeRes : Except Unit (Option String)
  tsRes : String → Except Unit (Option TsVal)

/-- One row of `DatabaseService._get_tables_status`'s result list. -/
structure TableStatusR where
  status : String
  row_count : ℤ
  table_size : String
  last_update : Option ℚ
  health : String
deriving DecidableEq

/-- One iteration of `DatabaseService._get_tables_status`: probe a table
and build its status record. The `except` branch producing an
"Error"-tagged record cannot fire, because every database call it guards
(`get_table_exists`, `get_table_count`, `get_table_size`,
`_get_latest_timestamp`) swallows its own exceptions. -/
def table_status_entry (now : ℚ) (c : TableConn) : TableStatusR :=
  if get_table_exists c.hasTable then
    let count := get_table_count c.countRes
    let tsize := get_table_size c.sizeRes
    let latest := get_latest_timestamp c.tsRes
    { status := "Active", row_count := count, table_size := tsize,
      last_update := latest,
      health := calculate_table_health now count latest }
  else
    { status := "Missing", row_count := 0, table_size := "N/A",
      last_update := none, health := "Critical" }

/-- `DatabaseService._get_tables_status` over a list of tables. -/
def get_tables_status (now : ℚ) (conns : List TableConn) : List TableStatusR :=
  conns.map (table_status_entry now)

/-!
src/pages/pipeline_monitor.py
-/

/-- Outcome of probing one member table inside `check_pipeline_stage`:
`missing` when `get_table_exists` returns false; `error` when one of the
guarded database calls raises (the `except` branch); `present rowCount ts`
when the table exists, with its `get_table_count` result and the datetime
(if any) that the inner timestamp-candidate loop assigns for this table
(the loop breaks at its first usable candidate, so each table contributes
at most one timestamp). -/
inductive TableProbe where
  | missing
  | error
  | present (rowCount : ℤ) (ts : Option ℚ)
deriving DecidableEq

/-- A probe is active when its table exists with a positive row count
(the condition under which `check_pipeline_stage` breaks with 'Active'). -/
def TableProbe.isActive : TableProbe → Bool
  | .present c _ => decide (0 < c)
  | _ => false

/-- The stage-health label one non-active probe leaves behind in
`check_pipeline_stage`'s loop. -/
def TableProbe.label : TableProbe → String
  | .missing => "Missing"
  | .error => "Error"
  | .present _ _ => "Inactive"

/-- `if latest_update is None or result > latest_update: latest_update =
result` from `check_pipeline_stage`. -/
def updateLatest (lu : Option ℚ) (ts : Option ℚ) : Option ℚ :=
  match ts with
  | none => lu
  | some t =>
    match lu with
    | none => some t
    | some u => if u < t then some t else some u

/-- The `for table_name ... in tables.items()` loop of
`check_pipeline_stage`, carrying `stage_records`, `latest_update` and
`stage_health`: a missing table sets health 'Missing'; a raised exception
sets 'Error'; an existing table adds its row count, may raise the latest
update, and either breaks with 'Active' (positive count) or continues with
'Inactive'. -/
def stage_loop : List TableProbe → ℤ → Option ℚ → String → ℤ × Option ℚ × String
  | [], recs, lu, h => (recs, lu, h)
  | .missing :: rest, recs, lu, _ => stage_loop rest recs lu "Missing"
  | .error :: rest, recs, lu, _ => stage_loop rest recs lu "Error"
  | .present c ts :: rest, recs, lu, _ =>
    if 0 < c then (recs + c, updateLatest lu ts, "Active")
    else stage_loop rest (recs + c) (updateLatest lu ts) "Inactive"

/-- The stage record `check_pipeline_stage` returns (the fields the
evaluation computes; the static `stage`, `description` and `tables` fields
are omitted). -/
structure StageStatusR where
  total_records : ℤ
  last_update : Option ℚ
  freshness : String
  health : String
deriving DecidableEq

/-- `check_pipeline_stage`: run the member-table loop from the initial
state (0 records, no timestamp, health 'Unknown'), then derive the stage
freshness label from the latest update via `get_age_hours` and
`get_freshness_status` ('Unknown' when no timestamp was found). -/
def check_pipeline_stage (now : ℚ) (probes : List TableProbe) : StageStatusR :=
  let r := stage_loop probes 0 none "Unknown"
  { total_records := r.1,
    last_update := r.2.1,
    freshness :=
      match r.2.1 with
      | some t => get_freshness_status (get_age_hours now (some t))
      | none => "Unknown",
    health := r.2.2 }

/-- Health-score computation of `render_pipeline_status_summary`:
`(active_stages / total_stages) * 100 if total_stages > 0 else 0`, where a
stage is active when its health is 'Active'. -/
def health_score (pipeline_status : List StageStatusR) : ℚ :=
  let active_stages := (pipeline_status.filter (fun s => s.health = "Active")).length
  let total_stages := pipeline_status.length
  if 0 < total_stages then ((active_stages : ℚ) / (total_stages : ℚ)) * 100 else 0

/-- Flow-rate computation of `render_data_flow_check`, reached only when
`source_count > 0`: `(target_count / source_count) * 100`, displayed
unclamped. -/
def flow_rate (source_count target_count : ℤ) : ℚ :=
  ((target_count : ℚ) / (source_count : ℚ)) * 100

/-- Qualitative banding of `render_data_flow_check`: strictly above 90
'Good Flow', strictly above 50 'Moderate Flow', otherwise 'Poor Flow'. -/
def flow_band (r : ℚ) : String :=
  if 90 < r then "Good Flow"
  else if 50 < r then "Moderate Flow"
  else "Poor Flow"

/-!
Concrete scenarios used by witnesses and instances.
-/

/-- A single Active stage record, for instantiating list-level theorems. -/
def exampleActiveStage : StageStatusR :=
  { total_records := 0, last_update := none, freshness := "Unknown", health := "Active" }

/-- The spec's end-to-end scenario (§8): stage 1 has one active table with
100 rows and a 2-hour-old timestamp, stage 2 one table that exists but is
empty, stage 3 one table that does not exist; evaluated at clock 0 with the
active table's timestamp 7200 seconds in the past. -/
def threeStageScenario : List StageStatusR :=
  [check_pipeline_stage 0 [TableProbe.present 100 (some (-7200))],
   check_pipeline_stage 0 [TableProbe.present 0 none],
   check_pipeline_stage 0 [TableProbe.missing]]

/-!
Theorems.
-/

/-- C1: for every non-empty list of stage statuses, the pipeline health
score of `render_pipeline_status_summary` equals (number of stages with
health 'Active') / (total stage count) * 100, and in the three-stage
scenario with exactly one Active stage the value displayed with one
decimal (`:.1f`) is 33.3. -/
theorem overall_health_percent_formula (ps : List StageStatusR) (h : ps ≠ []) :
    health_score ps =
      ((ps.filter (fun s => s.health = "Active")).length : ℚ) / (ps.length : ℚ) * 100
    ∧ round1 (health_score threeStageScenario) = 333/10 := by
  constructor
  · have hl : 0 < ps.length := List.length_pos.mpr h
    simp only [health_score, if_pos hl]
  · have h1 : health_score threeStageScenario = 100/3 := by
      simp [threeStageScenario, check_pipeline_stage, stage_loop, health_score,
        updateLatest, List.filter_cons]
      norm_num
    rw [h1]
    unfold round1 roundHalfEven
    norm_num [Int.floor_eq_iff]

/-- Witness for C1 at the singleton Active stage list. -/
theorem overall_health_percent_formula_witness :
    ([exampleActiveStage] ≠ []) ∧
    (health_score [exampleActiveStage] =
      ((([exampleActiveStage].filter (fun s => s.health = "Active")).length : ℚ) /
        (([exampleActiveStage] : List StageStatusR).length : ℚ) * 100)
     ∧ round1 (health_score threeStageScenario) = 333/10) :=
  ⟨by simp, overall_health_percent_formula [exampleActiveStage] (by simp)⟩

/-- C7: the freshness classification of `get_freshness_status` is
monotonically non-increasing in freshness rank as the age grows, matches
the threshold table exactly at the boundary ages 0.99, 1, 23.99, 24,
71.99, 72, 167.99 and 168 hours, and classifies an unset age as
Unknown. -/
theorem freshness_monotone_and_boundaries (a b : ℚ) (hab : a ≤ b) :
    freshRank (get_freshness_status (some b)) ≤ freshRank (get_freshness_status (some a))
    ∧ get_freshness_status (some (99/100)) = "Very Fresh (< 1h)"
    ∧ get_freshness_status (some 1) = "Fresh (< 6h)"
    ∧ get_freshness_status (some (2399/100)) = "Recent (< 24h)"
    ∧ get_freshness_status (some 24) = "Stale (2-3 days)"
    ∧ get_freshness_status (some (7199/100)) = "Stale (2-3 days)"
    ∧ get_freshness_status (some 72) = "Old (3-7 days)"
    ∧ get_freshness_status (some (16799/100)) = "Old (3-7 days)"
    ∧ get_freshness_status (some 168) = "Very Old (> 7 days)"
    ∧ get_freshness_status none = "Unknown" := by
  refine ⟨?_, ?_, ?_, ?_, ?_, ?_, ?_, ?_, ?_, ?_⟩
  · simp only [get_freshness_status]
    split_ifs <;> first | decide | linarith
  all_goals norm_num [get_freshness_status]

/-- In a stage with no active member, `check_pipeline_stage`'s loop never
breaks, so the health label left behind is that of the last member
processed. -/
theorem stage_loop_health_last (ps : List TableProbe) (p : TableProbe)
    (hna : ∀ q ∈ ps, q.isActive = false) (hl : ps.getLast? = some p)
    (recs : ℤ) (lu : Option ℚ) (h : String) :
    (stage_loop ps recs lu h).2.2 = p.label := by
  induction ps generalizing recs lu h with
  | nil => simp at hl
  | cons q rest ih =>
    have hq : q.isActive = false := hna q (by simp)
    have hrest : ∀ r ∈ rest, r.isActive = false := fun r hr => hna r (by simp [hr])
    cases rest with
    | nil =>
      have hpq : p = q := by simpa using hl.symm
      subst hpq
      cases p with
      | missing => simp [stage_loop, TableProbe.label]
      | error => simp [stage_loop, TableProbe.label]
      | present c ts =>
        have hc : ¬ 0 < c := by simpa [TableProbe.isActive] using hq
        simp [stage_loop, hc, TableProbe.label]
    | cons r rest2 =>
      have hl2 : (r :: rest2).getLast? = some p := by
        rw [List.getLast?_cons_cons] at hl
        exact hl
      cases q with
      | missing => simpa [stage_loop] using ih hrest hl2 recs lu "Missing"
      | error => simpa [stage_loop] using ih hrest hl2 recs lu "Error"
      | present c ts =>
        have hc : ¬ 0 < c := by simpa [TableProbe.isActive] using hq
        simpa [stage_loop, hc] using
          ih hrest hl2 (recs + c) (updateLatest lu ts) "Inactive"

/-- C2 counterexample: in the stage [missing table, existing-but-empty
table] no member probe is active and one member is missing, yet
`check_pipeline_stage` reports health 'Inactive' rather than the
'Missing' the claim requires (and 'Warning' is never produced). -/
theorem stage_fallback_health_counterexample :
    TableProbe.missing.isActive = false
    ∧ (TableProbe.present 0 none).isActive = false
    ∧ (check_pipeline_stage 0 [TableProbe.missing, TableProbe.present 0 none]).health
        = "Inactive"
    ∧ "Inactive" ≠ "Missing" := by
  refine ⟨rfl, by decide, ?_, by decide⟩
  simp [check_pipeline_stage, stage_loop]

/-- C2 amended: in a stage aggregation where no member table probe yields
exists=true with row_count>0, the stage health is the label of the last
member table in declaration order: 'Missing' if that table is missing,
'Error' if its probe raised, and 'Inactive' (not 'Warning') if it exists
but is empty. -/
theorem stage_fallback_health_amended (now : ℚ) (ps : List TableProbe) (p : TableProbe)
    (hna : ∀ q ∈ ps, q.isActive = false) (hl : ps.getLast? = some p) :
    (check_pipeline_stage now ps).health = p.label :=
  stage_loop_health_last ps p hna hl 0 none "Unknown"

/-- Witness for C2 amended on the stage [missing, existing-but-empty]. -/
theorem stage_fallback_health_amended_witness :
    (∀ q ∈ [TableProbe.missing, TableProbe.present 0 none], q.isActive = false)
    ∧ ([TableProbe.missing, TableProbe.present 0 none].getLast?
        = some (TableProbe.present 0 none))
    ∧ (check_pipeline_stage 0 [TableProbe.missing, TableProbe.present 0 none]).health
        = (TableProbe.present 0 none).label :=
  ⟨by decide, by decide,
   stage_fallback_health_amended 0 [TableProbe.missing, TableProbe.present 0 none]
     (TableProbe.present 0 none) (by decide) (by decide)⟩

/-- Row counts accumulated by `check_pipeline_stage`'s loop: member tables
are added in declaration order, and the loop breaks immediately after the
first table with a positive row count (missing and errored tables
contribute nothing). -/
def records_until_first_active : List TableProbe → ℤ
  | [] => 0
  | .missing :: rest => records_until_first_active rest
  | .error :: rest => records_until_first_active rest
  | .present c _ :: rest => if 0 < c then c else c + records_until_first_active rest

/-- The record accumulator of `stage_loop` adds exactly
`records_until_first_active`. -/
theorem stage_loop_records (ps : List TableProbe) (recs : ℤ) (lu : Option ℚ) (h : String) :
    (stage_loop ps recs lu h).1 = recs + records_until_first_active ps := by
  induction ps generalizing recs lu h with
  | nil => simp [stage_loop, records_until_first_active]
  | cons q rest ih =>
    cases q with
    | missing => simp [stage_loop, records_until_first_active, ih]
    | error => simp [stage_loop, records_until_first_active, ih]
    | present c ts =>
      by_cases hc : 0 < c
      · simp [stage_loop, records_until_first_active, hc]
      · simp [stage_loop, records_until_first_active, hc, ih]
        ring

/-- C5 counterexample: a stage whose two member tables both exist with 5
and 7 rows reports total_records = 5, not the 12 the claim's
sum-over-all-existing-members requires, because the loop breaks at the
first active table. -/
theorem stage_total_records_counterexample :
    (check_pipeline_stage 0 [TableProbe.present 5 none, TableProbe.present 7 none]).total_records = 5
    ∧ (5 : ℤ) ≠ 12 := by
  constructor
  · simp [check_pipeline_stage, stage_loop]
  · decide

/-- C5 amended: a stage's total_records equals the sum of row counts of
its member tables in declaration order up to and including the first table
with a positive row count; members after that table contribute nothing,
and missing or errored members contribute 0. -/
theorem stage_total_records_amended (now : ℚ) (ps : List TableProbe) :
    (check_pipeline_stage now ps).total_records = records_until_first_active ps := by
  simpa using stage_loop_records ps 0 none "Unknown"

/-- C3 counterexample: a table with one row whose data is 1 hour old gets
coarse health 'Good', not the 'Active' the claim names; and with no
timestamp available the health is 'Unknown', not 'Warning'. -/
theorem table_health_labels_counterexample :
    calculate_table_health 3600 1 (some 0) = "Good"
    ∧ "Good" ≠ "Active"
    ∧ calculate_table_health 0 1 none = "Unknown"
    ∧ "Unknown" ≠ "Warning" := by
  refine ⟨?_, by decide, ?_, by decide⟩
  · norm_num [calculate_table_health]
  · norm_num [calculate_table_health]

/-- C3 amended: for a table with row_count > 0, the coarse health of
`_calculate_table_health` is 'Good' when the age is under 24 hours,
'Warning' when it is at least 24 and under 72 hours, 'Critical' when it is
72 hours or more, and 'Unknown' when no timestamp is available. -/
theorem table_health_labels_amended (now t : ℚ) (count : ℤ) (hc : 0 < count) :
    ((now - t) / 3600 < 24 → calculate_table_health now count (some t) = "Good")
    ∧ (24 ≤ (now - t) / 3600 → (now - t) / 3600 < 72 →
        calculate_table_health now count (some t) = "Warning")
    ∧ (72 ≤ (now - t) / 3600 → calculate_table_health now count (some t) = "Critical")
    ∧ calculate_table_health now count none = "Unknown" := by
  have hc0 : ¬ count = 0 := by omega
  refine ⟨?_, ?_, ?_, ?_⟩
  · intro h1
    simp [calculate_table_health, hc0, if_pos h1]
  · intro h1 h2
    simp only [calculate_table_health, if_neg hc0]
    rw [if_neg (by linarith), if_pos h2]
  · intro h1
    simp only [calculate_table_health, if_neg hc0]
    rw [if_neg (by linarith), if_neg (by linarith)]
  · simp [calculate_table_health, hc0]

/-- Witness for C3 amended at ages 1h, 24h and 72h with one row. -/
theorem table_health_labels_amended_witness :
    ((0:ℤ) < 1)
    ∧ calculate_table_health 3600 1 (some 0) = "Good"
    ∧ calculate_table_health 86400 1 (some 0) = "Warning"
    ∧ calculate_table_health 259200 1 (some 0) = "Critical"
    ∧ calculate_table_health 0 1 none = "Unknown" := by
  refine ⟨by decide, ?_, ?_, ?_, ?_⟩
  · exact (table_health_labels_amended 3600 0 1 (by decide)).1 (by norm_num)
  · exact (table_health_labels_amended 86400 0 1 (by decide)).2.1 (by norm_num) (by norm_num)
  · exact (table_health_labels_amended 259200 0 1 (by decide)).2.2.1 (by norm_num)
  · exact (table_health_labels_amended 0 0 1 (by decide)).2.2.2

/-- A table view whose schema-catalog existence check raises. -/
def failingExistenceConn : TableConn :=
  { hasTable := Except.error (), countRes := Except.ok none,
    sizeRes := Except.ok none, tsRes := fun _ => Except.ok none }

/-- C4 counterexample: when the existence check raises, the probe does not
yield an Error-tagged result with a captured message; `get_table_exists`
swallows the exception into False and the table is reported 'Missing'
(health 'Critical'); likewise a raised row-count query is swallowed
into a count of 0. -/
theorem probe_error_swallowed_counterexample :
    table_status_entry 0 failingExistenceConn =
      { status := "Missing", row_count := 0, table_size := "N/A",
        last_update := none, health := "Critical" }
    ∧ (table_status_entry 0 failingExistenceConn).status ≠ "Error"
    ∧ (table_status_entry 0 failingExistenceConn).health ≠ "Error"
    ∧ get_table_exists (Except.error ()) = false
    ∧ get_table_count (Except.error ()) = 0 := by
  refine ⟨rfl, by decide, by decide, rfl, rfl⟩

/-- C4 amended: failures of the existence check and of the row-count check
ARE swallowed: a raised existence check reads as the table not existing
(False), a raised row-count query reads as 0 rows, and a table whose
existence check raises is reported with status 'Missing' and health
'Critical', with no error message carried. -/
theorem probe_error_swallowed_amended (e : Unit) (now : ℚ) (c : TableConn)
    (h : c.hasTable = Except.error ()) :
    get_table_exists (Except.error e) = false
    ∧ get_table_count (Except.error e) = 0
    ∧ table_status_entry now c =
        { status := "Missing", row_count := 0, table_size := "N/A",
          last_update := none, health := "Critical" } := by
  refine ⟨rfl, rfl, ?_⟩
  simp [table_status_entry, get_table_exists, h]

/-- Witness for C4 amended on `failingExistenceConn`. -/
theorem probe_error_swallowed_amended_witness :
    (failingExistenceConn.hasTable = Except.error ())
    ∧ (get_table_exists (Except.error ()) = false
       ∧ get_table_count (Except.error ()) = 0
       ∧ table_status_entry 0 failingExistenceConn =
           { status := "Missing", row_count := 0, table_size := "N/A",
             last_update := none, health := "Critical" }) :=
  ⟨rfl, probe_error_swallowed_amended () 0 failingExistenceConn rfl⟩

/-- A table view whose existence check cleanly returns False. -/
def absentTableConn : TableConn :=
  { hasTable := Except.ok false, countRes := Except.ok none,
    sizeRes := Except.ok none, tsRes := fun _ => Except.ok none }

/-- C6 counterexample: a table whose existence check returns false is
reported with health 'Critical' (its status field, not health, reads
'Missing'), contradicting the claim that the health is Missing. -/
theorem missing_table_status_counterexample :
    (table_status_entry 0 absentTableConn).health = "Critical"
    ∧ "Critical" ≠ "Missing"
    ∧ (table_status_entry 0 absentTableConn).status = "Missing"
    ∧ (table_status_entry 0 absentTableConn).last_update = none := by
  refine ⟨rfl, by decide, rfl, rfl⟩

/-- C6 amended: a table whose existence check returns false yields status
'Missing' with health 'Critical', and freshness computation is
short-circuited so the latest timestamp remains unset; in the
stage checker a missing member table leaves the stage-health marker
'Missing'. -/
theorem missing_table_status_amended (now : ℚ) (c : TableConn)
    (h : get_table_exists c.hasTable = false) :
    (table_status_entry now c).status = "Missing"
    ∧ (table_status_entry now c).health = "Critical"
    ∧ (table_status_entry now c).last_update = none
    ∧ (check_pipeline_stage now [TableProbe.missing]).health = "Missing" := by
  refine ⟨?_, ?_, ?_, ?_⟩ <;> simp [table_status_entry, h, check_pipeline_stage, stage_loop]

/-- Witness for C6 amended on `absentTableConn`. -/
theorem missing_table_status_amended_witness :
    (get_table_exists absentTableConn.hasTable = false)
    ∧ ((table_status_entry 0 absentTableConn).status = "Missing"
       ∧ (table_status_entry 0 absentTableConn).health = "Critical"
       ∧ (table_status_entry 0 absentTableConn).last_update = none
       ∧ (check_pipeline_stage 0 [TableProbe.missing]).health = "Missing") :=
  ⟨rfl, missing_table_status_amended 0 absentTableConn rfl⟩

/-- Witness for C7 at ages 0 and 1. -/
theorem freshness_monotone_and_boundaries_witness :
    ((0:ℚ) ≤ 1) ∧
    (freshRank (get_freshness_status (some 1)) ≤ freshRank (get_freshness_status (some 0))
    ∧ get_freshness_status (some (99/100)) = "Very Fresh (< 1h)"
    ∧ get_freshness_status (some 1) = "Fresh (< 6h)"
    ∧ get_freshness_status (some (2399/100)) = "Recent (< 24h)"
    ∧ get_freshness_status (some 24) = "Stale (2-3 days)"
    ∧ get_freshness_status (some (7199/100)) = "Stale (2-3 days)"
    ∧ get_freshness_status (some 72) = "Old (3-7 days)"
    ∧ get_freshness_status (some (16799/100)) = "Old (3-7 days)"
    ∧ get_freshness_status (some 168) = "Very Old (> 7 days)"
    ∧ get_freshness_status none = "Unknown") :=
  ⟨by norm_num, freshness_monotone_and_boundaries 0 1 (by norm_num)⟩

/-- A timestamp-candidate query outcome is well typed when it does not
return a non-datetime value: it raised, returned NULL, or returned a
datetime. -/
def tsWellTyped : Except Unit (Option TsVal) → Bool
  | .ok (some (.other _)) => false
  | _ => true

/-- The timestamp a candidate query contributes: its datetime if it
returned one, nothing if it raised or returned NULL. -/
def tsSuccess : Except Unit (Option TsVal) → Option ℚ
  | .ok (some (.dt t)) => some t
  | _ => none

/-- Over well-typed candidate outcomes, the candidate loop returns the
first datetime in candidate order, skipping raised and NULL candidates,
and none when every candidate fails. -/
theorem get_latest_timestamp_from_eq (db : String → Except Unit (Option TsVal))
    (cols : List String) (h : ∀ col ∈ cols, tsWellTyped (db col) = true) :
    get_latest_timestamp_from db cols
      = (cols.filterMap (fun col => tsSuccess (db col))).head? := by
  induction cols with
  | nil => rfl
  | cons c rest ih =>
    have hc : tsWellTyped (db c) = true := h c (by simp)
    have hrest : ∀ col ∈ rest, tsWellTyped (db col) = true :=
      fun col hcol => h col (by simp [hcol])
    cases hdb : db c with
    | error e =>
      simp [get_latest_timestamp_from, execute_scalar, hdb, List.filterMap_cons,
        tsSuccess, ih hrest]
    | ok v =>
      cases v with
      | none =>
        simp [get_latest_timestamp_from, execute_scalar, hdb, List.filterMap_cons,
          tsSuccess, ih hrest]
      | some tv =>
        cases tv with
        | dt t =>
          simp [get_latest_timestamp_from, execute_scalar, hdb, TsVal.isTruthy,
            List.filterMap_cons, tsSuccess]
        | other b =>
          rw [hdb] at hc
          simp [tsWellTyped] at hc

/-- A concrete candidate outcome assignment: `updated_at` raises,
`created_at` returns NULL, `timestamp` returns datetime 5, later
candidates return datetime 7. -/
def exampleTsDb : String → Except Unit (Option TsVal) := fun col =>
  if col = "updated_at" then Except.error ()
  else if col = "created_at" then Except.ok none
  else if col = "timestamp" then Except.ok (some (TsVal.dt 5))
  else Except.ok (some (TsVal.dt 7))

/-- C8: over candidate columns whose `MAX` queries raise, return NULL or
return a datetime, `_get_latest_timestamp` takes the first candidate, in
the fixed order updated_at, created_at, timestamp, last_updated, date,
that yields a non-null datetime; failures move on to the next candidate,
no later candidate is consulted after a success, and when every candidate
fails the result is simply unset (no failure escapes). -/
theorem latest_timestamp_first_match (db : String → Except Unit (Option TsVal))
    (h : ∀ col ∈ timestamp_columns, tsWellTyped (db col) = true) :
    get_latest_timestamp db
      = (timestamp_columns.filterMap (fun col => tsSuccess (db col))).head? :=
  get_latest_timestamp_from_eq db timestamp_columns h

/-- Witness for C8 on `exampleTsDb`: the first two candidates fail, the
third succeeds with datetime 5, the later datetime 7 is ignored. -/
theorem latest_timestamp_first_match_witness :
    (∀ col ∈ timestamp_columns, tsWellTyped (exampleTsDb col) = true)
    ∧ get_latest_timestamp exampleTsDb
        = (timestamp_columns.filterMap (fun col => tsSuccess (exampleTsDb col))).head?
    ∧ get_latest_timestamp exampleTsDb = some 5 :=
  ⟨by decide, latest_timestamp_first_match exampleTsDb (by decide), by rfl⟩

/-- C9 counterexample: at a flow rate of exactly 90 (source 10, matched
target 9) `render_data_flow_check` reports 'Moderate Flow', not the 'Good
Flow' the claim's ≥ 90 band requires; and at exactly 50 it reports 'Poor
Flow', not 'Moderate Flow'. -/
theorem flow_banding_counterexample :
    flow_rate 10 9 = 90
    ∧ flow_band (flow_rate 10 9) = "Moderate Flow"
    ∧ "Moderate Flow" ≠ "Good Flow"
    ∧ flow_band 50 = "Poor Flow"
    ∧ "Poor Flow" ≠ "Moderate Flow" := by
  have h : flow_rate 10 9 = 90 := by norm_num [flow_rate]
  refine ⟨h, ?_, by decide, ?_, by decide⟩
  · rw [h]; norm_num [flow_band]
  · norm_num [flow_band]

/-- C9 amended: with source_count > 0 the flow rate equals
target_matched_count / source_count * 100 with no upper clamp (source 10,
target 15 yields exactly 150), and the band is 'Good Flow' exactly when
the rate is strictly above 90, 'Moderate Flow' exactly when it is in
(50, 90], and 'Poor Flow' exactly when it is at most 50. -/
theorem flow_rate_banding_amended (s t : ℤ) (r : ℚ) ( _hs : 0 < s) :
    flow_rate s t = (t : ℚ) / (s : ℚ) * 100
    ∧ flow_rate 10 15 = 150
    ∧ (flow_band r = "Good Flow" ↔ 90 < r)
    ∧ (flow_band r = "Moderate Flow" ↔ (50 < r ∧ r ≤ 90))
    ∧ (flow_band r = "Poor Flow" ↔ r ≤ 50) := by
  refine ⟨rfl, by norm_num [flow_rate], ?_, ?_, ?_⟩
  · by_cases h1 : 90 < r
    · exact iff_of_true (by simp [flow_band, h1]) h1
    · by_cases h2 : 50 < r
      · exact iff_of_false (by simp [flow_band, h1, h2]) h1
      · exact iff_of_false (by simp [flow_band, h1, h2]) h1
  · by_cases h1 : 90 < r
    · exact iff_of_false (by simp [flow_band, h1]) (by rintro ⟨hx, hy⟩; linarith)
    · by_cases h2 : 50 < r
      · exact iff_of_true (by simp [flow_band, h1, h2]) ⟨h2, not_lt.mp h1⟩
      · exact iff_of_false (by simp [flow_band, h1, h2]) (by rintro ⟨hx, hy⟩; exact h2 hx)
  · by_cases h1 : 90 < r
    · exact iff_of_false (by simp [flow_band, h1]) (by intro hy; linarith)
    · by_cases h2 : 50 < r
      · exact iff_of_false (by simp [flow_band, h1, h2]) (by intro hy; linarith)
      · exact iff_of_true (by simp [flow_band, h1, h2]) (not_lt.mp h2)

/-- Witness for C9 amended at source 10, target 15 and rate 150. -/
theorem flow_rate_banding_amended_witness :
    ((0:ℤ) < 10)
    ∧ (flow_rate 10 15 = (15 : ℚ) / (10 : ℚ) * 100
       ∧ flow_rate 10 15 = 150
       ∧ (flow_band 150 = "Good Flow" ↔ (90:ℚ) < 150)
       ∧ (flow_band 150 = "Moderate Flow" ↔ ((50:ℚ) < 150 ∧ (150:ℚ) ≤ 90))
       ∧ (flow_band 150 = "Poor Flow" ↔ (150:ℚ) ≤ 50)) :=
  ⟨by decide, flow_rate_banding_amended 10 15 150 (by decide)⟩

/-- Filtering out a key makes it unfindable: dict deletion removes the
binding. -/
theorem dictGet_filter_self {β : Type} (l : List (String × β)) (k : String) :
    dictGet k (l.filter (fun p => !decide (p.1 = k))) = none := by
  induction l with
  | nil => rfl
  | cons p rest ih =>
    by_cases h : p.1 = k
    · simpa [List.filter_cons, h] using ih
    · simpa [List.filter_cons, h, dictGet] using ih

/-- Filtering out one key leaves every other key's binding unchanged. -/
theorem dictGet_filter_other {β : Type} (l : List (String × β)) (k kx : String)
    (h : kx ≠ k) :
    dictGet kx (l.filter (fun p => !decide (p.1 = k))) = dictGet kx l := by
  induction l with
  | nil => rfl
  | cons p rest ih =>
    by_cases hp : p.1 = k
    · have hkx : ¬ k = kx := Ne.symm h
      simpa [List.filter_cons, hp, dictGet, hkx] using ih
    · by_cases hx : p.1 = kx
      · have hkk : ¬ kx = k := by rw [← hx]; exact hp
        simp [List.filter_cons, hp, dictGet, hx, hkk]
      · simpa [List.filter_cons, hp, dictGet, hx] using ih

/-- C10 counterexample: an entry stored at time 0 with a 10-second TTL is
still returned by a get performed exactly at the expiry instant 0 + 10,
because `_is_expired` uses a strict comparison; the claim says a get at
the expiry instant returns None. -/
theorem cache_expiry_boundary_counterexample :
    ((((DashboardCache.empty ℤ).set "k" 42 10 0).get "k" 10).1 = some 42)
    ∧ ((0:ℚ) + 10 = 10)
    ∧ (some (42:ℤ) ≠ none) := by
  refine ⟨?_, by norm_num, by decide⟩
  norm_num [DashboardCache.empty, DashboardCache.set, DashboardCache.get,
    DashboardCache.isExpired, dictGet]

/-- C10 amended: a get at or before the expiry instant recorded by set
returns the stored value; a get strictly after the expiry instant returns
None and removes the entry from both underlying dicts; and set and get on
a key leave every other key's entry untouched, so entries disappear only
via expiry-on-get, delete, or clear. -/
theorem cache_ttl_amended {α : Type} (c : DashboardCache α) (k : String) (v : α)
    (ttl now t : ℚ) :
    (t ≤ now + ttl → ((c.set k v ttl now).get k t).1 = some v)
    ∧ (now + ttl < t →
        ((c.set k v ttl now).get k t).1 = none
        ∧ dictGet k (((c.set k v ttl now).get k t).2.cache) = none
        ∧ dictGet k (((c.set k v ttl now).get k t).2.timestamps) = none)
    ∧ (∀ kx, kx ≠ k →
        dictGet kx (c.set k v ttl now).cache = dictGet kx c.cache
        ∧ dictGet kx (((c.set k v ttl now).get k t).2).cache
            = dictGet kx (c.set k v ttl now).cache) := by
  refine ⟨?_, ?_, ?_⟩
  · intro h
    simp [DashboardCache.set, DashboardCache.get, DashboardCache.isExpired,
      dictGet, not_lt.mpr h]
  · intro h
    refine ⟨?_, ?_, ?_⟩ <;>
      simp [DashboardCache.set, DashboardCache.get, DashboardCache.isExpired,
        DashboardCache.delete, dictGet, h, dictGet_filter_self]
  · intro kx hkx
    have hk2 : ¬ k = kx := Ne.symm hkx
    constructor
    · simp [DashboardCache.set, dictGet, hk2, dictGet_filter_other _ _ _ hkx]
    · by_cases h : now + ttl < t
      · simp [DashboardCache.set, DashboardCache.get, DashboardCache.isExpired,
          DashboardCache.delete, dictGet, h, hk2, dictGet_filter_self,
          dictGet_filter_other _ _ _ hkx]
      · simp [DashboardCache.set, DashboardCache.get, DashboardCache.isExpired,
          dictGet, h]

/-- Witness for C10 amended: value 42 stored at time 0 with TTL 10 is
returned at time 5, gone (and removed) at time 11, and key "j" is never
disturbed. -/
theorem cache_ttl_amended_witness :
    ((5:ℚ) ≤ 0 + 10
     ∧ (((DashboardCache.empty ℤ).set "k" 42 10 0).get "k" 5).1 = some 42)
    ∧ ((0:ℚ) + 10 < 11
     ∧ ((((DashboardCache.empty ℤ).set "k" 42 10 0).get "k" 11).1 = none
        ∧ dictGet "k" ((((DashboardCache.empty ℤ).set "k" 42 10 0).get "k" 11).2.cache) = none
        ∧ dictGet "k" ((((DashboardCache.empty ℤ).set "k" 42 10 0).get "k" 11).2.timestamps) = none))
    ∧ ("j" ≠ "k"
     ∧ (dictGet "j" ((DashboardCache.empty ℤ).set "k" 42 10 0).cache
          = dictGet "j" (DashboardCache.empty ℤ).cache
        ∧ dictGet "j" ((((DashboardCache.empty ℤ).set "k" 42 10 0).get "k" 11).2).cache
            = dictGet "j" ((DashboardCache.empty ℤ).set "k" 42 10 0).cache)) :=
  ⟨⟨by norm_num, (cache_ttl_amended (DashboardCache.empty ℤ) "k" 42 10 0 5).1 (by norm_num)⟩,
   ⟨by norm_num, (cache_ttl_amended (DashboardCache.empty ℤ) "k" 42 10 0 11).2.1 (by norm_num)⟩,
   ⟨by decide, (cache_ttl_amended (DashboardCache.empty ℤ) "k" 42 10 0 11).2.2 "j" (by decide)⟩⟩
